import Mathlib

/-!
Verification of the telemetry ingestion and link-budget computation engine of
the Link-Budget-Analysis-Dashboard repository (src/dashboard.py), as a shallow
embedding in Lean 4.  Python strings are modelled as `List Char` (a Python
`str` is a sequence of characters), Python's exact behaviours on the decimal
wire format are modelled over `ℚ`, and the floating-point link-budget
arithmetic is modelled over `ℝ` (exact real arithmetic).
-/

open Real

/-- Model of Python's `line.split(',')` (dashboard.py line 125): splits a
character sequence at every occurrence of the separator, keeping empty
segments, so that `"".split(',') = [""]` and `",".split(',') = ["", ""]`. -/
def splitOnChar (sep : Char) : List Char → List (List Char)
  | [] => [[]]
  | c :: cs =>
    match splitOnChar sep cs with
    | [] => [[]]
    | g :: gs => if c = sep then [] :: g :: gs else (c :: g) :: gs

/-- Numeric value of a list of decimal digit characters, most significant
first. -/
def natOfDigits (ds : List Char) : Nat :=
  ds.foldl (fun n c => 10 * n + (c.toNat - 48)) 0

/-- Model of Python's `int()` builtin on an unsigned decimal numeral: a
nonempty all-digit string converts, anything else fails. -/
def parseNat? (ds : List Char) : Option Nat :=
  if !ds.isEmpty && ds.all Char.isDigit then some (natOfDigits ds) else none

/-- Model of Python's `int()` builtin (used at dashboard.py line 128) on the
wire format's optionally signed decimal numerals. -/
def parseInt? (cs : List Char) : Option Int :=
  match cs with
  | '-' :: rest => (parseNat? rest).map (fun n => -(n : Int))
  | '+' :: rest => (parseNat? rest).map (fun n => (n : Int))
  | _ => (parseNat? cs).map (fun n => (n : Int))

/-- Unsigned decimal numeral with an optional fractional part, valued in `ℚ`:
`"12"`, `"12.5"`, `"12."` and `".5"` convert, `"."` and `""` fail. -/
def parseFrac? (cs : List Char) : Option ℚ :=
  match splitOnChar '.' cs with
  | [ip] => (parseNat? ip).map (fun n => (n : ℚ))
  | [ip, fp] =>
      if ip.isEmpty && fp.isEmpty then none
      else
        match parseNat? (ip ++ fp) with
        | some n => some ((n : ℚ) / (10 : ℚ) ^ fp.length)
        | none => none
  | _ => none

/-- Model of Python's `float()` builtin (used at dashboard.py lines 129-133)
on the wire format's optionally signed decimal numerals, valued exactly
in `ℚ`. -/
def parseFloat? (cs : List Char) : Option ℚ :=
  match cs with
  | '-' :: rest => (parseFrac? rest).map (fun q => -q)
  | '+' :: rest => parseFrac? rest
  | _ => parseFrac? cs

/-- One parsed telemetry record (the dict built at dashboard.py lines 127-135).
The `datetime` field (wall-clock `receivedAt`, drawn from the environment) is
omitted from the model; all other fields are exact values of the decoded
numerals. -/
structure TelemetrySample where
  timestamp : Int
  latitude : ℚ
  longitude : ℚ
  altitude : ℚ
  rssi : ℚ
  snr : ℚ
  deriving DecidableEq, Repr

/-- Embedding of `parse_serial_data` (dashboard.py lines 119-138).  The first
component is the returned value (`none` models Python's `None`); the second
component records whether the operator-facing error report
(`st.sidebar.error`, line 137) fires.  The report fires exactly when a
numeric conversion raises inside the `try` block; a line whose comma-split
has fewer than 6 fields falls through to `return None` with no report. -/
def parse_serial_data (line : List Char) : Option TelemetrySample × Bool :=
  match splitOnChar ',' line with
  | p0 :: p1 :: p2 :: p3 :: p4 :: p5 :: _ =>
    match parseInt? p0, parseFloat? p1, parseFloat? p2,
          parseFloat? p3, parseFloat? p4, parseFloat? p5 with
    | some ts, some la, some lo, some al, some rs, some sn =>
      (some { timestamp := ts, latitude := la / 10000000, longitude := lo / 10000000,
              altitude := al / 1000, rssi := rs, snr := sn }, false)
    | _, _, _, _, _, _ => (none, true)
  | _ => (none, false)

/-- Predicate used to state claims about the valid-line case: the first six
fields of a comma-split all convert numerically (timestamp by `int()`, the
rest by `float()`). -/
def allConvert (parts : List (List Char)) : Bool :=
  match parts with
  | p0 :: p1 :: p2 :: p3 :: p4 :: p5 :: _ =>
    (parseInt? p0).isSome && (parseFloat? p1).isSome && (parseFloat? p2).isSome &&
    (parseFloat? p3).isSome && (parseFloat? p4).isSome && (parseFloat? p5).isSome
  | _ => false

/-- Embedding of the History Buffer append discipline (dashboard.py lines
225-228): `buffer.append(data)` followed by `if len(buffer) > 100:
buffer.pop(0)`.  Generic in the element type, as a Python list is. -/
def bufferAppend {α : Type} (buf : List α) (x : α) : List α :=
  let b := buf ++ [x]
  if b.length > 100 then b.tail else b

/-- Model of Python's `line.startswith("ERROR")` (dashboard.py line 222),
the reserved tag the Serial Reader puts on error markers (line 115). -/
def hasErrorTag : List Char → Bool
  | 'E' :: 'R' :: 'R' :: 'O' :: 'R' :: _ => true
  | _ => false

/-- Observable state of the consumer drain loop: the History Buffer
(`st.session_state.data_buffer`), plus two event logs making the loop's side
effects explicit — the lines handed to `parse_serial_data`, and the messages
surfaced on the operator-facing error channel (`st.sidebar.error` /
`st.error` calls). -/
structure ConsumerState where
  buffer : List TelemetrySample
  parsedLines : List (List Char)
  shownErrors : List (List Char)
  deriving DecidableEq, Repr

/-- Embedding of one iteration of the consumer drain loop (dashboard.py lines
219-230): dequeue a line; if it carries the reserved error tag, nothing
happens (the marker is dropped); otherwise the line goes to
`parse_serial_data`, whose success appends to the History Buffer and whose
reported failure surfaces one operator-facing error message. -/
def drainStep (s : ConsumerState) (line : List Char) : ConsumerState :=
  if hasErrorTag line then s
  else
    match parse_serial_data line with
    | (some d, _) =>
      { s with parsedLines := s.parsedLines ++ [line],
               buffer := bufferAppend s.buffer d }
    | (none, true) =>
      { s with parsedLines := s.parsedLines ++ [line],
               shownErrors := s.shownErrors ++ [line] }
    | (none, false) =>
      { s with parsedLines := s.parsedLines ++ [line] }

/-- Model of Python's `math.radians` (dashboard.py lines 65-68). -/
noncomputable def radians (x : ℝ) : ℝ :=
  x * (Real.pi / 180)

/-- Model of C's `math.atan2(y, x)` (dashboard.py line 74), by its standard
piecewise definition in terms of `arctan`. -/
noncomputable def atan2 (y x : ℝ) : ℝ :=
  if 0 < x then Real.arctan (y / x)
  else if x = 0 then
    (if 0 < y then Real.pi / 2 else if y < 0 then -(Real.pi / 2) else 0)
  else if 0 ≤ y then Real.arctan (y / x) + Real.pi
  else Real.arctan (y / x) - Real.pi

/-- Intermediate value `a` of the Haversine computation (dashboard.py line
73): `sin(dlat/2)**2 + cos(lat1_rad)*cos(lat2_rad)*sin(dlon/2)**2`. -/
noncomputable def haversine_a (lat1 lon1 lat2 lon2 : ℝ) : ℝ :=
  let lat1_rad := radians lat1
  let lon1_rad := radians lon1
  let lat2_rad := radians lat2
  let lon2_rad := radians lon2
  let dlat := lat2_rad - lat1_rad
  let dlon := lon2_rad - lon1_rad
  Real.sin (dlat / 2) ^ 2 +
    Real.cos lat1_rad * Real.cos lat2_rad * Real.sin (dlon / 2) ^ 2

/-- Embedding of `calculate_distance` (dashboard.py lines 58-76): Haversine
great-circle distance in kilometers with Earth radius 6371 km. -/
noncomputable def calculate_distance (lat1 lon1 lat2 lon2 : ℝ) : ℝ :=
  let R : ℝ := 6371
  let a := haversine_a lat1 lon1 lat2 lon2
  let c := 2 * atan2 (Real.sqrt a) (Real.sqrt (1 - a))
  R * c

/-- Embedding of `calculate_free_space_path_loss` (dashboard.py lines 78-88):
free-space path loss in dB for a distance in km and a frequency in MHz. -/
noncomputable def calculate_free_space_path_loss
    (distance_km frequency_mhz : ℝ) : ℝ :=
  if distance_km ≤ 0 then 0
  else 20 * Real.logb 10 distance_km + 20 * Real.logb 10 frequency_mhz + 32.44

/-- Embedding of `calculate_link_margin` (dashboard.py lines 90-102): returns
the pair `(link_margin, theoretical_rx_power)`. -/
noncomputable def calculate_link_margin
    (tx_power tx_gain rx_gain fspl rx_sensitivity filter_loss rssi : ℝ) : ℝ × ℝ :=
  let theoretical_rx_power := tx_power + tx_gain + rx_gain - fspl - filter_loss
  let link_margin := rssi - rx_sensitivity
  (link_margin, theoretical_rx_power)

/-- Embedding of the power-difference metric surfaced to presentation
(dashboard.py line 274): `latest_data['rssi'] - theoretical_rx_power`. -/
noncomputable def power_difference (rssi theoretical_rx_power : ℝ) : ℝ :=
  rssi - theoretical_rx_power

/-- Embedding of the qualitative link-margin classification (dashboard.py
line 270): `'Good' if link_margin > 10 else 'Poor' if link_margin < 0 else
'Fair'`. -/
noncomputable def classify_link_margin (link_margin : ℝ) : String :=
  if link_margin > 10 then "Good"
  else if link_margin < 0 then "Poor"
  else "Fair"

/-- C1: for every input line whose comma-split yields at least 6 fields and
whose fields all convert numerically (timestamp as integer, the rest as
floats), `parse_serial_data` returns a sample with latitude equal to the
second field divided by 10^7, longitude equal to the third field divided by
10^7, altitude equal to the fourth field divided by 10^3, and rssi/snr equal
to the fifth/sixth fields unchanged. -/
theorem C1_parse_valid_line (line : List Char)
    (p0 p1 p2 p3 p4 p5 : List Char) (rest : List (List Char))
    (hsplit : splitOnChar ',' line = p0 :: p1 :: p2 :: p3 :: p4 :: p5 :: rest)
    (ts : ℤ) (la lo al rs sn : ℚ)
    (h0 : parseInt? p0 = some ts) (h1 : parseFloat? p1 = some la)
    (h2 : parseFloat? p2 = some lo) (h3 : parseFloat? p3 = some al)
    (h4 : parseFloat? p4 = some rs) (h5 : parseFloat? p5 = some sn) :
    parse_serial_data line =
      (some { timestamp := ts, latitude := la / 10000000, longitude := lo / 10000000,
              altitude := al / 1000, rssi := rs, snr := sn }, false) := by
  simp [parse_serial_data, hsplit, h0, h1, h2, h3, h4, h5]

/-- Witness for C1 at the spec's scenario line
`"1000,185204000,738567000,100000,-95.0,8.0"`. -/
theorem C1_witness :
    parse_serial_data "1000,185204000,738567000,100000,-95.0,8.0".data =
      (some { timestamp := 1000, latitude := (185204000 : ℚ) / 10000000,
              longitude := (738567000 : ℚ) / 10000000, altitude := (100000 : ℚ) / 1000,
              rssi := (-95 : ℚ), snr := (8 : ℚ) }, false) := by
  have e1 : parseFloat? "185204000".data = some 185204000 := by
    have a1 : splitOnChar '.' "185204000".data = ["185204000".data] := by decide
    have a2 : parseNat? "185204000".data = some 185204000 := by decide
    simp [parseFloat?, parseFrac?, a1, a2]
  have e2 : parseFloat? "738567000".data = some 738567000 := by
    have a1 : splitOnChar '.' "738567000".data = ["738567000".data] := by decide
    have a2 : parseNat? "738567000".data = some 738567000 := by decide
    simp [parseFloat?, parseFrac?, a1, a2]
  have e3 : parseFloat? "100000".data = some 100000 := by
    have a1 : splitOnChar '.' "100000".data = ["100000".data] := by decide
    have a2 : parseNat? "100000".data = some 100000 := by decide
    simp [parseFloat?, parseFrac?, a1, a2]
  have e4 : parseFloat? "-95.0".data = some (-95) := by
    have a1 : splitOnChar '.' "95.0".data = [['9', '5'], ['0']] := by decide
    have a2 : parseNat? ['9', '5', '0'] = some 950 := by decide
    simp [parseFloat?, parseFrac?, a1, a2]
    norm_num
  have e5 : parseFloat? "8.0".data = some 8 := by
    have a1 : splitOnChar '.' "8.0".data = [['8'], ['0']] := by decide
    have a2 : parseNat? ['8', '0'] = some 80 := by decide
    simp [parseFloat?, parseFrac?, a1, a2]
    norm_num
  exact C1_parse_valid_line _ "1000".data "185204000".data "738567000".data
    "100000".data "-95.0".data "8.0".data [] (by decide) 1000 185204000 738567000
    100000 (-95) 8 (by decide) e1 e2 e3 e4 e5

/-- C2: for every distance d and frequency f, the free-space path loss
function returns exactly 0 when d ≤ 0, and otherwise returns
20·log10(d) + 20·log10(f) + 32.44. -/
theorem C2_fspl (d f : ℝ) :
    (d ≤ 0 → calculate_free_space_path_loss d f = 0) ∧
    (¬ d ≤ 0 → calculate_free_space_path_loss d f =
      20 * Real.logb 10 d + 20 * Real.logb 10 f + 32.44) := by
  constructor <;> intro h <;> simp [calculate_free_space_path_loss, h]

/-- Witness for C2 at d = 0 (degenerate case) and d = 2 (formula case),
f = 915 MHz. -/
theorem C2_witness :
    calculate_free_space_path_loss 0 915 = 0 ∧
    calculate_free_space_path_loss 2 915 =
      20 * Real.logb 10 2 + 20 * Real.logb 10 915 + 32.44 :=
  ⟨(C2_fspl 0 915).1 (le_refl 0), (C2_fspl 2 915).2 (by norm_num)⟩

/-- C3: for every input tuple, the link-budget computation returns
theoretical received power = txPower + txGain + rxGain − fspl − filterLoss,
link margin = rssi − rxSensitivity, and the power difference surfaced to
presentation equals rssi − theoretical received power. -/
theorem C3_link_budget
    (tx_power tx_gain rx_gain fspl rx_sensitivity filter_loss rssi : ℝ) :
    (calculate_link_margin tx_power tx_gain rx_gain fspl rx_sensitivity
        filter_loss rssi).2 = tx_power + tx_gain + rx_gain - fspl - filter_loss ∧
    (calculate_link_margin tx_power tx_gain rx_gain fspl rx_sensitivity
        filter_loss rssi).1 = rssi - rx_sensitivity ∧
    power_difference rssi (calculate_link_margin tx_power tx_gain rx_gain fspl
        rx_sensitivity filter_loss rssi).2 =
      rssi - (tx_power + tx_gain + rx_gain - fspl - filter_loss) :=
  ⟨rfl, rfl, rfl⟩

/-- C8: for every link-margin value m, the classification is "Good" exactly
when m > 10, "Poor" exactly when m < 0, and "Fair" otherwise; in particular
m = 10 and m = 0 both classify as "Fair". -/
theorem C8_classification (m : ℝ) :
    (classify_link_margin m = "Good" ↔ m > 10) ∧
    (classify_link_margin m = "Poor" ↔ m < 0) ∧
    (classify_link_margin m = "Fair" ↔ m ≤ 10 ∧ 0 ≤ m) ∧
    classify_link_margin 10 = "Fair" ∧ classify_link_margin 0 = "Fair" := by
  have hgp : ("Good" : String) ≠ "Poor" := by decide
  have hgf : ("Good" : String) ≠ "Fair" := by decide
  have hpf : ("Poor" : String) ≠ "Fair" := by decide
  have hfair : ∀ x : ℝ, ¬ x > 10 → ¬ x < 0 → classify_link_margin x = "Fair" := by
    intro x h1 h2
    simp [classify_link_margin, h1, h2]
  refine ⟨?_, ?_, ?_, hfair 10 (by norm_num) (by norm_num),
    hfair 0 (by norm_num) (by norm_num)⟩ <;>
    (unfold classify_link_margin; split_ifs with h1 h2) <;>
      (simp_all; try linarith)

/-- Helper: an append step below capacity is a plain append. -/
theorem bufferAppend_of_lt {α : Type} (buf : List α) (x : α)
    (h : buf.length < 100) : bufferAppend buf x = buf ++ [x] := by
  simp only [bufferAppend]
  rw [if_neg]
  simp
  omega

/-- Helper: an append step at capacity evicts the head. -/
theorem bufferAppend_of_eq {α : Type} (buf : List α) (x : α)
    (h : buf.length = 100) : bufferAppend buf x = (buf ++ [x]).tail := by
  simp only [bufferAppend]
  rw [if_pos]
  simp [h]

/-- Helper: closed form of folding the append discipline over a batch of
samples, starting from any in-capacity buffer: the result is the suffix of
`buf ++ l` holding its last `min 100 (buf.length + l.length)` entries. -/
theorem foldl_bufferAppend {α : Type} (l : List α) :
    ∀ buf : List α, buf.length ≤ 100 →
      List.foldl bufferAppend buf l =
        (buf ++ l).drop (buf.length + l.length - 100) := by
  induction l with
  | nil =>
    intro buf h
    simp [Nat.sub_eq_zero_of_le h]
  | cons s t ih =>
    intro buf h
    rw [List.foldl_cons]
    rcases Nat.lt_or_ge buf.length 100 with hlt | hge
    · rw [bufferAppend_of_lt buf s hlt]
      rw [ih (buf ++ [s]) (by simp; omega)]
      have harith : (buf ++ [s]).length + t.length - 100 =
          buf.length + (s :: t).length - 100 := by
        simp; omega
      rw [harith]
      congr 1
      simp
    · have heq : buf.length = 100 := le_antisymm h hge
      rw [bufferAppend_of_eq buf s heq]
      rcases buf with _ | ⟨hd, tl⟩
      · simp at heq
      · have htl : tl.length = 99 := by simp at heq; omega
        have hth : ((hd :: tl) ++ [s]).tail = tl ++ [s] := by simp
        rw [hth, ih (tl ++ [s]) (by simp; omega)]
        have harith : (tl ++ [s]).length + t.length - 100 = t.length := by
          simp only [List.length_append, List.length_cons, List.length_nil, htl]
          omega
        have harith2 : (hd :: tl).length + (s :: t).length - 100 = t.length + 1 := by
          simp only [List.length_cons, htl]
          omega
        rw [harith, harith2]
        simp [List.drop_succ_cons]

/-- C4: the History Buffer append discipline is a FIFO ring of capacity 100:
appending 101 samples to an empty buffer leaves exactly 100 entries, namely
samples #2 through #101 in arrival order; and any append step from a state
with at most 100 entries ends with at most 100 entries, evicting the oldest
entry when the size would exceed 100. -/
theorem C4_history_buffer :
    (∀ (α : Type) (samples : List α), samples.length = 101 →
      List.foldl bufferAppend [] samples = samples.drop 1 ∧
      (List.foldl bufferAppend [] samples).length = 100) ∧
    (∀ (α : Type) (buf : List α) (x : α), buf.length ≤ 100 →
      (bufferAppend buf x).length ≤ 100 ∧
      (buf.length = 100 → bufferAppend buf x = buf.drop 1 ++ [x])) := by
  constructor
  · intro α samples h
    have hf := foldl_bufferAppend samples [] (by simp)
    simp only [List.nil_append, List.length_nil, Nat.zero_add, h] at hf
    constructor
    · simpa using hf
    · rw [hf]
      simp [h]
  · intro α buf x h
    rcases Nat.lt_or_ge buf.length 100 with hlt | hge
    · rw [bufferAppend_of_lt buf x hlt]
      constructor
      · simp; omega
      · intro he; omega
    · have heq : buf.length = 100 := le_antisymm h hge
      rw [bufferAppend_of_eq buf x heq]
      constructor
      · simp [heq]
      · intro _
        rcases buf with _ | ⟨hd, tl⟩
        · simp at heq
        · simp

/-- Witness for C4 at the concrete batch `List.range 101` and the concrete
full buffer `List.range 100`. -/
theorem C4_witness :
    List.foldl bufferAppend [] (List.range 101) = (List.range 101).drop 1 ∧
    (bufferAppend (List.range 100) 7).length ≤ 100 :=
  ⟨(C4_history_buffer.1 Nat (List.range 101) (by simp)).1,
   (C4_history_buffer.2 Nat (List.range 100) 7 (by simp)).1⟩

/-- Helper: a line whose comma-split has fewer than 6 fields makes
`parse_serial_data` return `None` without any operator-facing report. -/
theorem parse_short_line (line : List Char)
    (h : (splitOnChar ',' line).length < 6) :
    parse_serial_data line = (none, false) := by
  unfold parse_serial_data
  generalize hps : splitOnChar ',' line = ps at h ⊢
  rcases ps with _ | ⟨p0, _ | ⟨p1, _ | ⟨p2, _ | ⟨p3, _ | ⟨p4, _ | ⟨p5, rest⟩⟩⟩⟩⟩⟩ <;>
    first
      | rfl
      | (simp only [List.length_cons] at h; omega)

/-- Helper: a line whose comma-split has at least 6 fields, some of which
fails numeric conversion, makes `parse_serial_data` return `None` with the
operator-facing report fired. -/
theorem parse_conversion_failure (line : List Char)
    (h6 : 6 ≤ (splitOnChar ',' line).length)
    (hc : allConvert (splitOnChar ',' line) = false) :
    parse_serial_data line = (none, true) := by
  unfold parse_serial_data
  unfold allConvert at hc
  generalize hps : splitOnChar ',' line = ps at h6 hc ⊢
  rcases ps with _ | ⟨p0, _ | ⟨p1, _ | ⟨p2, _ | ⟨p3, _ | ⟨p4, _ | ⟨p5, rest⟩⟩⟩⟩⟩⟩ <;>
    try (simp only [List.length_cons, List.length_nil] at h6; omega)
  rcases hp0 : parseInt? p0 with _ | ts <;>
    rcases hp1 : parseFloat? p1 with _ | la <;>
    rcases hp2 : parseFloat? p2 with _ | lo <;>
    rcases hp3 : parseFloat? p3 with _ | al <;>
    rcases hp4 : parseFloat? p4 with _ | rs <;>
    rcases hp5 : parseFloat? p5 with _ | sn <;>
    simp_all

/-- Helper: whenever parsing fails, the drain step leaves the History Buffer
unchanged. -/
theorem drainStep_buffer_of_parse_none (s : ConsumerState) (line : List Char)
    (h : (parse_serial_data line).1 = none) :
    (drainStep s line).buffer = s.buffer := by
  unfold drainStep
  by_cases ht : hasErrorTag line
  · simp [ht]
  · rcases hp : parse_serial_data line with ⟨o, b⟩
    rw [hp] at h
    simp only at h
    subst h
    rcases b <;> simp [ht, hp]

/-- C5 counterexample: at the concrete line `"1,2,3"`, the comma-split has
fewer than 6 fields and parse fails, but no operator-facing report fires
(the report flag is `false` and the drain step surfaces no error message),
refuting the claim that such failures are reported for operator
visibility. -/
theorem C5_counterexample :
    (splitOnChar ',' "1,2,3".data).length < 6 ∧
    parse_serial_data "1,2,3".data = (none, false) ∧
    (drainStep ⟨[], [], []⟩ "1,2,3".data).shownErrors = [] := by
  refine ⟨by decide, by decide, by decide⟩

/-- C5 (amended): a line with fewer than 6 comma-separated fields makes parse
fail silently (no operator-facing report); a line with at least 6 fields
where some field fails numeric conversion makes parse fail with the
operator-facing report fired; in both cases the line is discarded and the
History Buffer is left unchanged. -/
theorem C5_parse_failure_handling (line : List Char) :
    ((splitOnChar ',' line).length < 6 → parse_serial_data line = (none, false)) ∧
    (6 ≤ (splitOnChar ',' line).length → allConvert (splitOnChar ',' line) = false →
      parse_serial_data line = (none, true)) ∧
    (∀ s : ConsumerState, (parse_serial_data line).1 = none →
      (drainStep s line).buffer = s.buffer) :=
  ⟨parse_short_line line, parse_conversion_failure line,
   fun s h => drainStep_buffer_of_parse_none s line h⟩

/-- Witness for C5 at the short line `"1,2,3"`, the non-numeric line
`"a,b,c,d,e,f"`, and a drain step on the short line `"x,y"`. -/
theorem C5_witness :
    parse_serial_data "1,2,3".data = (none, false) ∧
    parse_serial_data "a,b,c,d,e,f".data = (none, true) ∧
    (drainStep ⟨[], [], []⟩ "x,y".data).buffer = [] :=
  ⟨(C5_parse_failure_handling "1,2,3".data).1 (by decide),
   (C5_parse_failure_handling "a,b,c,d,e,f".data).2.1 (by decide) (by decide),
   (C5_parse_failure_handling "x,y".data).2.2 ⟨[], [], []⟩ (by decide)⟩

/-- C9 counterexample: at the concrete dequeued item `"ERROR: serial"`, the
item carries the reserved error tag, yet the drain step surfaces nothing on
the operator-facing error channel, refuting the claim that error markers are
surfaced to the operator. -/
theorem C9_counterexample :
    hasErrorTag "ERROR: serial".data = true ∧
    (drainStep ⟨[], [], []⟩ "ERROR: serial".data).shownErrors = [] := by
  refine ⟨by decide, by decide⟩

/-- C9 (amended): an item dequeued by the consumer drain loop that carries
the reserved error-marker tag is never passed to the telemetry parser and
never appended to the History Buffer, but it is not surfaced to the
operator-facing error channel either: the drain step discards it silently,
leaving the whole consumer state unchanged. -/
theorem C9_error_marker_skipped (s : ConsumerState) (line : List Char)
    (h : hasErrorTag line = true) :
    drainStep s line = s := by
  simp [drainStep, h]

/-- Witness for C9 at the concrete marker `"ERROR: x"` and an empty consumer
state. -/
theorem C9_witness :
    drainStep ⟨[], [], []⟩ "ERROR: x".data = ⟨[], [], []⟩ :=
  C9_error_marker_skipped ⟨[], [], []⟩ "ERROR: x".data (by decide)

/-- Helper: the atan2 model at (0, 1) is 0. -/
theorem atan2_zero_one : atan2 0 1 = 0 := by
  rw [atan2, if_pos (by norm_num : (0:ℝ) < 1)]
  norm_num

/-- Helper: atan2 is nonnegative in the closed first quadrant. -/
theorem atan2_nonneg (y x : ℝ) (hy : 0 ≤ y) (hx : 0 ≤ x) : 0 ≤ atan2 y x := by
  have hpi := Real.pi_pos
  rcases lt_or_eq_of_le hx with h | h
  · rw [atan2, if_pos h]
    have harc : Real.arctan 0 ≤ Real.arctan (y / x) :=
      Real.arctan_strictMono.monotone (div_nonneg hy (le_of_lt h))
    rwa [Real.arctan_zero] at harc
  · rw [atan2, if_neg (by rw [← h]; exact lt_irrefl 0), if_pos h.symm]
    rcases lt_or_eq_of_le hy with hy' | hy'
    · rw [if_pos hy']
      linarith
    · rw [if_neg (by rw [← hy']; exact lt_irrefl 0),
          if_neg (by rw [← hy']; exact lt_irrefl 0)]

/-- Helper: atan2 is at most π/2 in the closed first quadrant. -/
theorem atan2_le_pi_div_two (y x : ℝ) (hy : 0 ≤ y) (hx : 0 ≤ x) :
    atan2 y x ≤ Real.pi / 2 := by
  have hpi := Real.pi_pos
  rcases lt_or_eq_of_le hx with h | h
  · rw [atan2, if_pos h]
    exact le_of_lt (Real.arctan_lt_pi_div_two _)
  · rw [atan2, if_neg (by rw [← h]; exact lt_irrefl 0), if_pos h.symm]
    rcases lt_or_eq_of_le hy with hy' | hy'
    · rw [if_pos hy']
    · rw [if_neg (by rw [← hy']; exact lt_irrefl 0),
          if_neg (by rw [← hy']; exact lt_irrefl 0)]
      linarith

/-- Helper: the Haversine intermediate expression lies in [0, 1] for all real
arguments, by the half-angle and product-to-sum identities. -/
theorem haversine_core_bounds (x y d : ℝ) :
    0 ≤ Real.sin ((y - x) / 2) ^ 2 + Real.cos x * Real.cos y * Real.sin d ^ 2 ∧
    Real.sin ((y - x) / 2) ^ 2 + Real.cos x * Real.cos y * Real.sin d ^ 2 ≤ 1 := by
  have hs01 : 0 ≤ Real.sin d ^ 2 := sq_nonneg _
  have hs1 : Real.sin d ^ 2 ≤ 1 := by
    nlinarith [sq_nonneg (Real.cos d), Real.sin_sq_add_cos_sq d]
  have hhalf : Real.sin ((y - x) / 2) ^ 2 = (1 - Real.cos (y - x)) / 2 := by
    have hc := Real.cos_sq ((y - x) / 2)
    have hs := Real.sin_sq_add_cos_sq ((y - x) / 2)
    have h2 : 2 * ((y - x) / 2) = y - x := by ring
    rw [h2] at hc
    linarith
  have hprod : Real.cos x * Real.cos y =
      (Real.cos (y - x) + Real.cos (x + y)) / 2 := by
    have h1 := Real.cos_sub x y
    have h2 := Real.cos_add x y
    have h3 : Real.cos (x - y) = Real.cos (y - x) := by
      rw [← Real.cos_neg (x - y), neg_sub]
    linarith
  have hb1 : -1 ≤ Real.cos (y - x) := Real.neg_one_le_cos _
  have hb2 : Real.cos (y - x) ≤ 1 := Real.cos_le_one _
  have hb3 : -1 ≤ Real.cos (x + y) := Real.neg_one_le_cos _
  have hb4 : Real.cos (x + y) ≤ 1 := Real.cos_le_one _
  constructor
  · nlinarith [mul_nonneg (by linarith : (0:ℝ) ≤ 1 - Real.cos (y - x))
        (by linarith : (0:ℝ) ≤ 1 - Real.sin d ^ 2),
      mul_nonneg (by linarith : (0:ℝ) ≤ 1 + Real.cos (x + y)) hs01]
  · nlinarith [mul_nonneg (by linarith : (0:ℝ) ≤ 1 + Real.cos (y - x))
        (by linarith : (0:ℝ) ≤ 1 - Real.sin d ^ 2),
      mul_nonneg (by linarith : (0:ℝ) ≤ 1 - Real.cos (x + y)) hs01]

/-- Helper: the intermediate value `a` of `calculate_distance` lies in
[0, 1] for all real inputs. -/
theorem haversine_a_bounds (lat1 lon1 lat2 lon2 : ℝ) :
    0 ≤ haversine_a lat1 lon1 lat2 lon2 ∧ haversine_a lat1 lon1 lat2 lon2 ≤ 1 := by
  simp only [haversine_a]
  exact haversine_core_bounds (radians lat1) (radians lat2)
    ((radians lon2 - radians lon1) / 2)

/-- Helper: the Haversine intermediate value vanishes on identical
coordinate pairs. -/
theorem haversine_a_self (lat lon : ℝ) : haversine_a lat lon lat lon = 0 := by
  simp [haversine_a]

/-- Helper: the Haversine intermediate value is symmetric in its two
coordinate pairs. -/
theorem haversine_a_symm (lat1 lon1 lat2 lon2 : ℝ) :
    haversine_a lat1 lon1 lat2 lon2 = haversine_a lat2 lon2 lat1 lon1 := by
  simp only [haversine_a]
  have h1 : (radians lat1 - radians lat2) / 2 =
      -((radians lat2 - radians lat1) / 2) := by ring
  have h2 : (radians lon1 - radians lon2) / 2 =
      -((radians lon2 - radians lon1) / 2) := by ring
  rw [h1, h2, Real.sin_neg, Real.sin_neg]
  ring

/-- C6: for every point p, the haversine distance from p to itself is 0; and
for every pair of points a and b, the haversine distance from a to b equals
the haversine distance from b to a. -/
theorem C6_haversine_identity_and_symmetry :
    (∀ lat lon : ℝ, calculate_distance lat lon lat lon = 0) ∧
    (∀ lat1 lon1 lat2 lon2 : ℝ,
      calculate_distance lat1 lon1 lat2 lon2 =
        calculate_distance lat2 lon2 lat1 lon1) := by
  constructor
  · intro lat lon
    simp only [calculate_distance, haversine_a_self]
    rw [Real.sqrt_zero]
    norm_num [atan2_zero_one]
  · intro lat1 lon1 lat2 lon2
    simp only [calculate_distance]
    rw [haversine_a_symm]

/-- C10: the haversine distance function is total and bounded over exact
real arithmetic: for all real latitude/longitude inputs, the intermediate
value a lies in [0, 1] (so both square-root arguments are nonnegative), and
the returned distance lies in [0, 6371·π] kilometers. -/
theorem C10_haversine_total_and_bounded (lat1 lon1 lat2 lon2 : ℝ) :
    0 ≤ haversine_a lat1 lon1 lat2 lon2 ∧
    haversine_a lat1 lon1 lat2 lon2 ≤ 1 ∧
    0 ≤ calculate_distance lat1 lon1 lat2 lon2 ∧
    calculate_distance lat1 lon1 lat2 lon2 ≤ 6371 * Real.pi := by
  obtain ⟨h0, h1⟩ := haversine_a_bounds lat1 lon1 lat2 lon2
  refine ⟨h0, h1, ?_, ?_⟩
  · have hn := atan2_nonneg (Real.sqrt (haversine_a lat1 lon1 lat2 lon2))
      (Real.sqrt (1 - haversine_a lat1 lon1 lat2 lon2))
      (Real.sqrt_nonneg _) (Real.sqrt_nonneg _)
    simp only [calculate_distance]
    linarith
  · have hle := atan2_le_pi_div_two (Real.sqrt (haversine_a lat1 lon1 lat2 lon2))
      (Real.sqrt (1 - haversine_a lat1 lon1 lat2 lon2))
      (Real.sqrt_nonneg _) (Real.sqrt_nonneg _)
    simp only [calculate_distance]
    linarith
